import Mathlib

/-!
Shallow embedding of the PINECONe Monte Carlo Total Economic Value engine
(`src/pinecone/economics/tev_calculator.py`).

Numbers are modelled as exact rationals `ℚ` (Python floats enter only as
decimal literals and the claims under study are about exact structural
arithmetic, not rounding).  A draw from `Normal(mean, std)` is modelled as
`mean + std * z`, where `z` is the standard-normal variate the process-wide
random generator would produce at that call site; an evaluation of the TEV
model consumes one such variate per stochastic field, collected in a `Noise`
record.  Python dictionaries are modelled as association lists (first match
wins, mirroring unique-key dicts); optional dictionary arguments are
`Option`s, and a `None`-or-missing-key dictionary entry is `Option`/a
dedicated constructor as noted at each definition.
-/

/-- A TEV parameter as the Python code treats it at sampling time: either a
plain scalar (`fixed`) or a `(mean, std)` tuple (`pair`) interpreted as a
normal distribution. -/
inductive Param where
  | fixed (v : ℚ)
  | pair (mean std : ℚ)
  deriving DecidableEq, Repr

/-- Embedding of the inner `get_value` helper of `TEVCalculator.calculate_tev`:
a tuple draws `np.random.normal(mean, std)` (modelled as `mean + std * z` for
the generator's standard-normal variate `z`); anything else is returned
unchanged (the variate is not consumed, which the positional `Noise` record
below makes irrelevant). -/
def get_value : Param → ℚ → ℚ
  | .fixed v, _ => v
  | .pair m s, z => m + s * z

/-- The standard-normal variates one evaluation of the TEV model can consume:
one per `get_value` call site, in the source's order (stumpage price, price
shock, biomass, regeneration cost, carbon, water, species WTP, discount
rate). -/
structure Noise where
  zE : ℚ
  zEps : ℚ
  zV : ℚ
  zg : ℚ
  zPvc : ℚ
  zW : ℚ
  zWTP : ℚ
  zR : ℚ
  deriving DecidableEq, Repr

/-- A fully resolved per-zone parameter set, the `case_params` dictionary
built by `create_economic_parameters` (all keys present). -/
structure CaseParams where
  E_Pt : Param
  epsilon_t : Param
  V_t : Param
  g : Param
  pvc_per_acre : Param
  water_quality_value : Param
  endangered_species_WTP : Param
  R_t_lease : List ℚ
  T_lease : ℕ
  r_lease : Param
  deriving DecidableEq, Repr

/-- The lease accumulation loop of `calculate_tev`: after `T` iterations,
`l_per_acre` holds the sum over `t_val = 1..T` of
`(R_t_lease[t_val-1] if t_val-1 < len(R_t_lease) else 0) / (1+r_lease)^t_val`. -/
def leaseLoop (R : List ℚ) (r : ℚ) : ℕ → ℚ
  | 0 => 0
  | Nat.succ t => leaseLoop R r t + R.getD t 0 / (1 + r) ^ (t + 1)

/-- One iteration of the simulation loop body of `calculate_tev`: the per-acre
TEV for a single Monte Carlo draw. -/
def tev_per_acre (p : CaseParams) (n : Noise) : ℚ :=
  let E_Pt := get_value p.E_Pt n.zE
  let epsilon_t := get_value p.epsilon_t n.zEps
  let P_actual_t := E_Pt + epsilon_t
  let V_t := get_value p.V_t n.zV
  let g := get_value p.g n.zg
  let pv_timber_per_acre := P_actual_t * V_t - g
  let pvc_per_acre_val := get_value p.pvc_per_acre n.zPvc
  let water_quality_value := get_value p.water_quality_value n.zW
  let endangered_species_WTP := get_value p.endangered_species_WTP n.zWTP
  let pe_per_acre := water_quality_value + endangered_species_WTP
  let r_lease := get_value p.r_lease n.zR
  let l_per_acre := leaseLoop p.R_t_lease r_lease p.T_lease
  pv_timber_per_acre + pvc_per_acre_val + pe_per_acre + l_per_acre

/-- Embedding of `TEVCalculator.calculate_tev`: runs the loop body once per
element of `noises` (so `num_simulations = noises.length`) and scales by
`total_acres` exactly when it is neither `None` nor `≤ 0`. -/
def calculate_tev (p : CaseParams) (total_acres : Option ℚ) (noises : List Noise) :
    List ℚ :=
  let simulated_tevs_per_acre := noises.map (tev_per_acre p)
  match total_acres with
  | some a => if 0 < a then simulated_tevs_per_acre.map (fun x => x * a)
              else simulated_tevs_per_acre
  | none => simulated_tevs_per_acre

/-- A zone's entry in `biomass_stats`; the code reads both keys with
`.get(key, 0)`, so each is optional. -/
structure BiomassEntry where
  AGB_per_acre_tons : Option ℚ := none
  AGB_StdDev_per_acre_tons : Option ℚ := none
  deriving DecidableEq, Repr

/-- A zone's entry in `emissions_stats`; both keys read with `.get(key, 0)`. -/
structure EmissionsEntry where
  CO2_mean_tons_per_acre : Option ℚ := none
  CO2_std_tons_per_acre : Option ℚ := none
  deriving DecidableEq, Repr

/-- A value stored in the `water_yield_stats` dictionary: either `None` (or
any non-dict value — both fail the `water_data and isinstance(water_data,
dict)` test the same way) or a dictionary of string keys to numbers, kept as
an association list so that Python truthiness (non-emptiness) and arbitrary
extra keys are representable. -/
inductive WaterVal where
  | null
  | dict (kvs : List (String × ℚ))
  deriving DecidableEq, Repr

/-- A zone's entry in `user_params`: a partial economic-parameter dictionary;
every key is read with `.get(key, default)` in the merge. -/
structure UserEntry where
  E_Pt : Option Param := none
  g : Option Param := none
  endangered_species_WTP : Option Param := none
  R_t_lease : Option (List ℚ) := none
  T_lease : Option ℕ := none
  r_lease : Option Param := none
  epsilon_t : Option Param := none
  deriving DecidableEq, Repr

/-- Python's `str.replace('_LLP', '')` on the character list: removes every
non-overlapping occurrence of `_LLP`, scanning left to right. -/
def stripLLP : List Char → List Char
  | '_' :: 'L' :: 'L' :: 'P' :: rest => stripLLP rest
  | c :: rest => c :: stripLLP rest
  | [] => []

/-- The key used for the water-yield lookup: `zone_name.replace('_LLP', '')`. -/
def stripZone (s : String) : String := ⟨stripLLP s.data⟩

/-- Python's `pat in s` substring test, on character lists. -/
def listContainsSub (pat : List Char) : List Char → Bool
  | [] => decide (pat = [])
  | c :: rest => pat.isPrefixOf (c :: rest) || listContainsSub pat rest

/-- Python's `pat in s` substring containment for strings. -/
def containsSub (s pat : String) : Bool := listContainsSub pat.data s.data

/-- Embedding of `get_default_params_for_zone`: the zone-class default table,
dispatched by substring match on the zone name.  None of the branches carries
an `epsilon_t` key. -/
def get_default_params_for_zone (zone_name : String) : UserEntry :=
  if containsSub zone_name "CS1" then
    { E_Pt := some (.pair 7.50 1)
      g := some (.pair 375 50)
      endangered_species_WTP := some (.pair (13.37 * 0.1) 1)
      R_t_lease := some [50, 20, 0, 0, 0]
      T_lease := some 5
      r_lease := some (.fixed 0.06) }
  else if containsSub zone_name "CS2" then
    { E_Pt := some (.pair 21 3)
      g := some (.pair 200 30)
      endangered_species_WTP := some (.pair (13.37 * 0.5) 2)
      R_t_lease := some [200, 100, 50, 20, 10]
      T_lease := some 5
      r_lease := some (.fixed 0.055) }
  else if containsSub zone_name "CS3" then
    { E_Pt := some (.pair 36 5)
      g := some (.pair 50 10)
      endangered_species_WTP := some (.pair (13.37 * 1) 3)
      R_t_lease := some [700, 700, 700, 700, 700]
      T_lease := some 5
      r_lease := some (.fixed 0.05) }
  else
    { E_Pt := some (.pair 25 3)
      g := some (.pair 200 30)
      endangered_species_WTP := some (.pair 13.37 2)
      R_t_lease := some [200, 200, 200, 200, 200]
      T_lease := some 5
      r_lease := some (.fixed 0.05) }

/-- The water-yield branch of `create_economic_parameters` for one zone:
mirrors the `if water_yield_stats and zone.replace('_LLP','') in
water_yield_stats` test (a `None` or empty stats dict fails it exactly when
the lookup fails, so the lookup subsumes the truthiness test), then the
`if water_data and isinstance(water_data, dict)` test, then the two
`.get(..., default)` reads. -/
def waterBranch (zone_name : String) (water_yield_stats : Option (List (String × WaterVal))) :
    ℚ × ℚ :=
  match water_yield_stats with
  | some ws =>
    match List.lookup (stripZone zone_name) ws with
    | some (.dict kvs) =>
      if kvs.isEmpty then (100.0, 2.0)
      else
        let water_value := (List.lookup "water_yield_per_acre_usd" kvs).getD 0
        let water_std := (List.lookup "water_yield_std_per_acre_usd" kvs).getD
          (water_value * 0.1)
        (water_value, water_std)
    | some .null => (100.0, 2.0)
    | none => (100.0, 2.0)
  | none => (100.0, 2.0)

/-- The user-override branch of `create_economic_parameters` for one zone:
`user_params[zone]` if `user_params` is truthy and has the zone, else the
zone-class default table. -/
def userBranch (zone_name : String) (user_params : Option (List (String × UserEntry))) :
    UserEntry :=
  match user_params with
  | some up =>
    match List.lookup zone_name up with
    | some e => e
    | none => get_default_params_for_zone zone_name
  | none => get_default_params_for_zone zone_name

/-- The body of the `for zone_name in biomass_stats.keys()` loop of
`create_economic_parameters`: resolves one zone's complete `CaseParams`. -/
def resolveZone (zone_name : String) (biomass_data : BiomassEntry)
    (emissions_stats : List (String × EmissionsEntry))
    (water_yield_stats : Option (List (String × WaterVal)))
    (user_params : Option (List (String × UserEntry)))
    (carbon_credit_price : ℚ) : CaseParams :=
  let agb_per_acre := biomass_data.AGB_per_acre_tons.getD 0
  let std_agb := biomass_data.AGB_StdDev_per_acre_tons.getD 0
  let emissions_data := (List.lookup zone_name emissions_stats).getD {}
  let pvc_mean := emissions_data.CO2_mean_tons_per_acre.getD 0
  let pvc_std := emissions_data.CO2_std_tons_per_acre.getD 0
  let pvc_mean_adj := pvc_mean * carbon_credit_price
  let pvc_std_adj := pvc_std * carbon_credit_price
  let w := waterBranch zone_name water_yield_stats
  let zone_user_params := userBranch zone_name user_params
  { V_t := .pair agb_per_acre std_agb
    pvc_per_acre := .pair pvc_mean_adj pvc_std_adj
    water_quality_value := .pair w.1 w.2
    E_Pt := zone_user_params.E_Pt.getD (.pair 25.0 3.0)
    g := zone_user_params.g.getD (.pair 200.0 30.0)
    endangered_species_WTP := zone_user_params.endangered_species_WTP.getD (.pair 13.37 2.0)
    R_t_lease := zone_user_params.R_t_lease.getD [200, 150, 100, 50, 25]
    T_lease := zone_user_params.T_lease.getD 5
    r_lease := zone_user_params.r_lease.getD (.fixed 0.05)
    epsilon_t := zone_user_params.epsilon_t.getD (.fixed 0) }

/-- Embedding of `TEVCalculator.create_economic_parameters`: iterates over the
zones of `biomass_stats` (in dict order) and resolves each; a zone absent from
`biomass_stats` is never visited, and every branch of the body is total — the
function has no failure path. -/
def create_economic_parameters (biomass_stats : List (String × BiomassEntry))
    (emissions_stats : List (String × EmissionsEntry))
    (water_yield_stats : Option (List (String × WaterVal)))
    (user_params : Option (List (String × UserEntry)))
    (carbon_credit_price : ℚ) : List (String × CaseParams) :=
  biomass_stats.map (fun zb =>
    (zb.1, resolveZone zb.1 zb.2 emissions_stats water_yield_stats user_params
      carbon_credit_price))

/-- Insertion of one element into an ascending-sorted rational list. -/
def insertSorted (x : ℚ) : List ℚ → List ℚ
  | [] => [x]
  | y :: ys => if x ≤ y then x :: y :: ys else y :: insertSorted x ys

/-- Ascending sort of a rational list (the sort `np.median`/`np.percentile`
perform internally). -/
def sortQ : List ℚ → List ℚ
  | [] => []
  | x :: xs => insertSorted x (sortQ xs)

/-- Embedding of `np.percentile(xs, q)` with numpy's default linear
interpolation: on the ascending sort `s` of `xs` with `n` elements, the rank
is `q/100 * (n-1)`; with `i = ⌊rank⌋` and `γ = rank - i`, the result is
`s[i] + γ * (s[i+1] - s[i])` (the last element when `i` is already the last
index).  Empty input is out of numpy's domain; `0` stands in for its error. -/
def percentileQ (q : ℚ) (xs : List ℚ) : ℚ :=
  let s := sortQ xs
  let n := s.length
  if n = 0 then 0
  else
    let rank : ℚ := q / 100 * ((n : ℚ) - 1)
    let i : ℕ := (Int.floor rank).toNat
    let gamma : ℚ := rank - (i : ℚ)
    if i + 1 < n then s.getD i 0 + gamma * (s.getD (i + 1) 0 - s.getD i 0)
    else s.getD (n - 1) 0

/-- Embedding of `np.mean`: arithmetic mean (empty input out of domain,
`0` stands in for numpy's nan). -/
def npMean (xs : List ℚ) : ℚ := xs.sum / (xs.length : ℚ)

/-- Population variance, the quantity under the square root in `np.std`
(numpy's default `ddof = 0`). -/
def npVar (xs : List ℚ) : ℚ :=
  (xs.map (fun x => (x - npMean xs) ^ 2)).sum / (xs.length : ℚ)

/-- Embedding of `np.std`: square root of the population variance.  The root
is irrational in general, so this single statistic lives in `ℝ`. -/
noncomputable def npStd (xs : List ℚ) : ℝ := Real.sqrt ((npVar xs : ℚ) : ℝ)

/-- Embedding of `np.median`: middle element of the ascending sort, or the
average of the two middle elements for even length. -/
def npMedian (xs : List ℚ) : ℚ :=
  let s := sortQ xs
  let n := s.length
  if n = 0 then 0
  else if n % 2 = 1 then s.getD (n / 2) 0
  else (s.getD (n / 2 - 1) 0 + s.getD (n / 2) 0) / 2

/-- Embedding of `np.min` (empty input out of domain). -/
def npMin : List ℚ → ℚ
  | [] => 0
  | x :: xs => xs.foldl min x

/-- Embedding of `np.max` (empty input out of domain). -/
def npMax : List ℚ → ℚ
  | [] => 0
  | x :: xs => xs.foldl max x

/-- One row of the summary DataFrame built by `run_monte_carlo`. -/
structure SummaryRow where
  Case : String
  Acres : ℚ
  Mean_TEV : ℚ
  Std_TEV : ℝ
  Median_TEV : ℚ
  Q25_TEV : ℚ
  Q75_TEV : ℚ
  Min_TEV : ℚ
  Max_TEV : ℚ

/-- The summary-statistics record appended by `run_monte_carlo` for one
zone's simulation results. -/
noncomputable def summaryRow (zone_name : String) (acres : ℚ) (results : List ℚ) :
    SummaryRow :=
  { Case := zone_name
    Acres := acres
    Mean_TEV := npMean results
    Std_TEV := npStd results
    Median_TEV := npMedian results
    Q25_TEV := percentileQ 25 results
    Q75_TEV := percentileQ 75 results
    Min_TEV := npMin results
    Max_TEV := npMax results }

/-- Embedding of `TEVCalculator.run_monte_carlo`: resolves the economic
parameters, then for each zone reads `case_acres.get(zone, 0)`, skips the zone
(with a printed warning, no exception) exactly when that value equals zero,
and otherwise appends the summary row of `calculate_tev(zone_params, acres,
num_simulations)`.  `noises` supplies each zone's standard-normal draws (the
global generator's stream split per zone); `num_simulations` is their
length. -/
noncomputable def run_monte_carlo (biomass_stats : List (String × BiomassEntry))
    (emissions_stats : List (String × EmissionsEntry))
    (case_acres : List (String × ℚ))
    (water_yield_stats : Option (List (String × WaterVal)))
    (user_params : Option (List (String × UserEntry)))
    (carbon_credit_price : ℚ)
    (noises : String → List Noise) : List SummaryRow :=
  let economic_params := create_economic_parameters biomass_stats emissions_stats
    water_yield_stats user_params carbon_credit_price
  economic_params.filterMap (fun zp =>
    let acres := (List.lookup zp.1 case_acres).getD 0
    if acres = 0 then none
    else some (summaryRow zp.1 acres (calculate_tev zp.2 (some acres) (noises zp.1))))

/-- The lease accumulation loop computes the closed-form discounted sum. -/
theorem leaseLoop_eq_sum (R : List ℚ) (r : ℚ) (T : ℕ) :
    leaseLoop R r T = ∑ t ∈ Finset.range T, R.getD t 0 / (1 + r) ^ (t + 1) := by
  induction T with
  | zero => simp [leaseLoop]
  | succ T ih => rw [leaseLoop, ih, Finset.sum_range_succ]

/-- A parameter whose sampling cannot vary: a fixed scalar, or a pair with
zero standard deviation. -/
def Param.degenerate : Param → Prop
  | .fixed _ => True
  | .pair _ s => s = 0

/-- All stochastic fields of a parameter set are degenerate. -/
def CaseParams.degenerate (p : CaseParams) : Prop :=
  p.E_Pt.degenerate ∧ p.epsilon_t.degenerate ∧ p.V_t.degenerate ∧
  p.g.degenerate ∧ p.pvc_per_acre.degenerate ∧ p.water_quality_value.degenerate ∧
  p.endangered_species_WTP.degenerate ∧ p.r_lease.degenerate

theorem get_value_degenerate {p : Param} (hp : p.degenerate) (z₁ z₂ : ℚ) :
    get_value p z₁ = get_value p z₂ := by
  cases p with
  | fixed v => rfl
  | pair m s =>
    simp only [Param.degenerate] at hp
    simp [get_value, hp]

/-- An example fully-resolved parameter set used to instantiate witnesses. -/
def pEx : CaseParams :=
  { E_Pt := .pair 25 3
    epsilon_t := .fixed 0
    V_t := .pair 50 5
    g := .pair 200 30
    pvc_per_acre := .pair 100 10
    water_quality_value := .pair 100 2
    endangered_species_WTP := .pair 13.37 2
    R_t_lease := [200, 150, 100, 50, 25]
    T_lease := 5
    r_lease := .fixed 0.05 }

/-- An example parameter set with every stochastic field degenerate. -/
def pZeroStd : CaseParams :=
  { E_Pt := .pair 25 0
    epsilon_t := .fixed 0
    V_t := .pair 50 0
    g := .pair 200 0
    pvc_per_acre := .pair 100 0
    water_quality_value := .pair 100 0
    endangered_species_WTP := .pair 13.37 0
    R_t_lease := [200, 150, 100, 50, 25]
    T_lease := 5
    r_lease := .pair 0.05 0 }

/-- An example vector of standard-normal variates. -/
def nEx : Noise := ⟨1, 2, 3, 4, 5, 6, 7, 8⟩

/-- A second, different example vector of standard-normal variates. -/
def nEx2 : Noise := ⟨-1, 0, 1, 0, 2, 0, 3, 0⟩

/-- An example biomass entry. -/
def bEx : BiomassEntry :=
  { AGB_per_acre_tons := some 50, AGB_StdDev_per_acre_tons := some 5 }

/-- C1: one evaluation of the TEV model returns the sum of exactly four
per-acre components — timber `(stumpage + shock) * biomass - regeneration`,
carbon, ecosystem `water + WTP`, and the lease sum over `t = 1..T_lease` of
`(t-th revenue or 0) / (1 + r)^t` with the discount rate `r` sampled once and
reused in every term. -/
theorem tev_four_component_sum (p : CaseParams) (n : Noise) :
    tev_per_acre p n =
      ((get_value p.E_Pt n.zE + get_value p.epsilon_t n.zEps) * get_value p.V_t n.zV
        - get_value p.g n.zg)
      + get_value p.pvc_per_acre n.zPvc
      + (get_value p.water_quality_value n.zW + get_value p.endangered_species_WTP n.zWTP)
      + ∑ t ∈ Finset.range p.T_lease,
          p.R_t_lease.getD t 0 / (1 + get_value p.r_lease n.zR) ^ (t + 1) := by
  simp only [tev_per_acre, leaseLoop_eq_sum]

/-- C4: the sampler draws from `Normal(mean, std)` (modelled as
`mean + std * z`) exactly when the parameter is a pair, passes any other
value through unchanged, and in the degenerate case `std = 0` returns
exactly the mean, whatever the generator's variate. -/
theorem sampler_pair_draw_fixed_passthrough (m s v z : ℚ) :
    get_value (.pair m s) z = m + s * z ∧
    get_value (.fixed v) z = v ∧
    get_value (.pair m 0) z = m := by
  refine ⟨rfl, rfl, ?_⟩
  simp [get_value]

/-- C5: with positive acreage `A` the driver's output is element-wise `A`
times the per-acre output, and with acreage zero or unspecified the per-acre
draws are returned unscaled — all under identical random draws. -/
theorem acreage_scaling_law (p : CaseParams) (noises : List Noise) (A : ℚ)
    (hA : 0 < A) :
    calculate_tev p (some A) noises = (calculate_tev p none noises).map (fun x => x * A)
    ∧ calculate_tev p (some 0) noises = noises.map (tev_per_acre p)
    ∧ calculate_tev p none noises = noises.map (tev_per_acre p) := by
  refine ⟨?_, ?_, rfl⟩
  · simp [calculate_tev, hA]
  · simp [calculate_tev]

/-- Witness for the scaling law at acreage 2 on a singleton run. -/
theorem acreage_scaling_law_witness :
    (0 : ℚ) < 2 ∧
    (calculate_tev pEx (some 2) [nEx] = (calculate_tev pEx none [nEx]).map (fun x => x * 2)
      ∧ calculate_tev pEx (some 0) [nEx] = [nEx].map (tev_per_acre pEx)
      ∧ calculate_tev pEx none [nEx] = [nEx].map (tev_per_acre pEx)) :=
  ⟨by norm_num, acreage_scaling_law pEx [nEx] 2 (by norm_num)⟩

/-- C8: when every stochastic field has zero standard deviation (or is a
fixed scalar), any two evaluations of the TEV model agree, whatever the
random generator's state supplies. -/
theorem zero_variance_determinism (p : CaseParams) (hp : p.degenerate)
    (n₁ n₂ : Noise) : tev_per_acre p n₁ = tev_per_acre p n₂ := by
  obtain ⟨h₁, h₂, h₃, h₄, h₅, h₆, h₇, h₈⟩ := hp
  simp only [tev_per_acre]
  rw [get_value_degenerate h₁ n₁.zE n₂.zE, get_value_degenerate h₂ n₁.zEps n₂.zEps,
    get_value_degenerate h₃ n₁.zV n₂.zV, get_value_degenerate h₄ n₁.zg n₂.zg,
    get_value_degenerate h₅ n₁.zPvc n₂.zPvc, get_value_degenerate h₆ n₁.zW n₂.zW,
    get_value_degenerate h₇ n₁.zWTP n₂.zWTP, get_value_degenerate h₈ n₁.zR n₂.zR]

/-- Witness for zero-variance determinism on a concrete parameter set and two
different noise vectors. -/
theorem zero_variance_determinism_witness :
    pZeroStd.degenerate ∧ tev_per_acre pZeroStd nEx = tev_per_acre pZeroStd nEx2 :=
  ⟨by simp [pZeroStd, CaseParams.degenerate, Param.degenerate],
   zero_variance_determinism pZeroStd
     (by simp [pZeroStd, CaseParams.degenerate, Param.degenerate]) nEx nEx2⟩

/-- C7: on a single-sample sequence the summary aggregator returns a std of
exactly 0 and the sample itself as mean, median, both quartiles, min and
max. -/
theorem single_sample_summary_stats (z : String) (a x : ℚ) :
    (summaryRow z a [x]).Mean_TEV = x ∧ (summaryRow z a [x]).Std_TEV = 0 ∧
    (summaryRow z a [x]).Median_TEV = x ∧ (summaryRow z a [x]).Q25_TEV = x ∧
    (summaryRow z a [x]).Q75_TEV = x ∧ (summaryRow z a [x]).Min_TEV = x ∧
    (summaryRow z a [x]).Max_TEV = x := by
  refine ⟨?_, ?_, ?_, ?_, ?_, ?_, ?_⟩ <;>
    simp [summaryRow, npMean, npStd, npVar, npMedian, percentileQ, sortQ,
      insertSorted, npMin, npMax, List.getD]

/-- C2 counterexample: with zone `Z` present in `biomass_stats` but absent
from `emissions_stats`, the resolver raises nothing — it completes normally
(the embedded function is total, mirroring the absence of any `raise` in the
source) and silently assigns the zone the carbon parameter `(0, 0)`; no
`MissingInputError` exists anywhere in the code base. -/
theorem missing_emissions_no_raise_cex :
    create_economic_parameters [("Z", bEx)] [] none none 10 =
      [("Z",
        { V_t := .pair 50 5
          pvc_per_acre := .pair 0 0
          water_quality_value := .pair 100 2
          E_Pt := .pair 25 3
          g := .pair 200 30
          endangered_species_WTP := .pair 13.37 2
          R_t_lease := [200, 200, 200, 200, 200]
          T_lease := 5
          r_lease := .fixed 0.05
          epsilon_t := .fixed 0 })] := by
  simp [create_economic_parameters, resolveZone, waterBranch, userBranch,
    get_default_params_for_zone, containsSub, listContainsSub, bEx, List.lookup]
  norm_num

/-- C2 amended: the resolver never raises for any input; it yields exactly
one parameter set per `biomass_stats` zone (a zone with missing biomass is
silently omitted, since zones are enumerated from `biomass_stats`), and a
zone absent from `emissions_stats` silently receives the carbon parameter
`(0, 0)` instead of an error; missing water yield and missing user overrides
likewise fall back to defaults. -/
theorem resolver_total_missing_inputs (biomass : List (String × BiomassEntry))
    (emis : List (String × EmissionsEntry)) (water : Option (List (String × WaterVal)))
    (user : Option (List (String × UserEntry))) (price : ℚ) (z : String)
    (b : BiomassEntry) (hem : List.lookup z emis = none) :
    (create_economic_parameters biomass emis water user price).map Prod.fst =
      biomass.map Prod.fst
    ∧ (resolveZone z b emis water user price).pvc_per_acre = Param.pair 0 0 := by
  constructor
  · simp [create_economic_parameters]
  · simp [resolveZone, hem]

/-- Witness for the amended C2 statement on a concrete one-zone input with
empty emissions. -/
theorem resolver_total_missing_inputs_witness :
    List.lookup "Z" ([] : List (String × EmissionsEntry)) = none ∧
    ((create_economic_parameters [("Z", bEx)] [] none none 10).map Prod.fst =
        [("Z", bEx)].map Prod.fst
      ∧ (resolveZone "Z" bEx [] none none 10).pvc_per_acre = Param.pair 0 0) :=
  ⟨rfl, resolver_total_missing_inputs [("Z", bEx)] [] none none 10 "Z" bEx rfl⟩

/-- C3 counterexample: a water-yield entry that is present as a NON-empty
mapping but lacks the mean field resolves to `(0, supplied std)` — here
`(0, 5)` — not to the fixed default `(100.0, 2.0)` the claim requires. -/
theorem water_missing_mean_cex :
    (resolveZone "Z" bEx []
        (some [("Z", .dict [("water_yield_std_per_acre_usd", 5)])]) none 10
      ).water_quality_value = Param.pair 0 5
    ∧ Param.pair (0 : ℚ) 5 ≠ Param.pair 100.0 2.0 := by
  constructor
  · simp [resolveZone, waterBranch, stripZone, stripLLP, List.lookup]
  · intro h
    rw [Param.pair.injEq] at h
    norm_num at h

/-- C3 amended: the resolved water-yield parameter equals the supplied
entry's `(mean, std)` when the (stripped-key) entry is a non-empty mapping
containing the mean (std defaulting to 10% of the mean when absent); it
equals the fixed default `(100.0, 2.0)` when the water stats are absent, the
key is missing, or the entry is `None` or an empty mapping; but an entry
present as a non-empty mapping without the mean field yields mean `0` (not
the default).  Omitting the water-yield input is identical to explicitly
supplying `(100.0, 2.0)`. -/
theorem water_yield_resolution (z : String) (b : BiomassEntry)
    (e : List (String × EmissionsEntry)) (u : Option (List (String × UserEntry)))
    (price m : ℚ) (ws ws₂ : List (String × WaterVal)) (kvs : List (String × ℚ))
    (hkv : List.lookup (stripZone z) ws = some (.dict kvs))
    (hne : kvs ≠ [])
    (hm : List.lookup "water_yield_per_acre_usd" kvs = some m)
    (hother : List.lookup (stripZone z) ws₂ = none ∨
      List.lookup (stripZone z) ws₂ = some .null ∨
      List.lookup (stripZone z) ws₂ = some (.dict [])) :
    (resolveZone z b e (some ws) u price).water_quality_value =
      Param.pair m ((List.lookup "water_yield_std_per_acre_usd" kvs).getD (m * 0.1))
    ∧ (resolveZone z b e (some ws₂) u price).water_quality_value = Param.pair 100.0 2.0
    ∧ (resolveZone z b e none u price).water_quality_value = Param.pair 100.0 2.0
    ∧ resolveZone z b e none u price =
        resolveZone z b e
          (some [(stripZone z, .dict [("water_yield_per_acre_usd", 100.0),
            ("water_yield_std_per_acre_usd", 2.0)])]) u price := by
  refine ⟨?_, ?_, ?_, ?_⟩
  · simp [resolveZone, waterBranch, hkv, hm, List.isEmpty_iff, hne]
  · rcases hother with h | h | h <;> simp [resolveZone, waterBranch, h]
  · simp [resolveZone, waterBranch]
  · simp only [resolveZone]
    have hw : waterBranch z none =
        waterBranch z (some [(stripZone z, .dict [("water_yield_per_acre_usd", 100.0),
          ("water_yield_std_per_acre_usd", 2.0)])]) := by
      simp [waterBranch, List.lookup]
    rw [hw]

/-- An example water-yield dictionary entry with both fields. -/
def kvsEx : List (String × ℚ) :=
  [("water_yield_per_acre_usd", 7), ("water_yield_std_per_acre_usd", 3)]

/-- An example water-yield stats dictionary for zone `ZW`. -/
def wsEx : List (String × WaterVal) := [("ZW", .dict kvsEx)]

/-- Witness for the amended C3 statement on zone `ZW` with a complete entry
and an empty stats dictionary for the fallback side. -/
theorem water_yield_resolution_witness :
    List.lookup (stripZone "ZW") wsEx = some (.dict kvsEx) ∧ kvsEx ≠ [] ∧
    List.lookup "water_yield_per_acre_usd" kvsEx = some 7 ∧
    (List.lookup (stripZone "ZW") ([] : List (String × WaterVal)) = none ∨
      List.lookup (stripZone "ZW") ([] : List (String × WaterVal)) = some .null ∨
      List.lookup (stripZone "ZW") ([] : List (String × WaterVal)) = some (.dict [])) ∧
    ((resolveZone "ZW" bEx [] (some wsEx) none 10).water_quality_value =
        Param.pair 7 ((List.lookup "water_yield_std_per_acre_usd" kvsEx).getD (7 * 0.1))
      ∧ (resolveZone "ZW" bEx [] (some ([] : List (String × WaterVal))) none 10
          ).water_quality_value = Param.pair 100.0 2.0
      ∧ (resolveZone "ZW" bEx [] none none 10).water_quality_value = Param.pair 100.0 2.0
      ∧ resolveZone "ZW" bEx [] none none 10 =
          resolveZone "ZW" bEx []
            (some [(stripZone "ZW", .dict [("water_yield_per_acre_usd", 100.0),
              ("water_yield_std_per_acre_usd", 2.0)])]) none 10) :=
  ⟨rfl, by decide, rfl, Or.inl rfl,
   water_yield_resolution "ZW" bEx [] none 10 7 wsEx [] kvsEx rfl (by decide) rfl
     (Or.inl rfl)⟩

/-- C9: the water-yield lookup key is the zone identifier with every
occurrence of `_LLP` removed — the resolved water value depends only on the
stats entry under the stripped key, and when the stripped key is absent the
fixed default is used even if an entry exists under the full identifier. -/
theorem water_lookup_stripped_key (z : String) (b : BiomassEntry)
    (e : List (String × EmissionsEntry)) (u : Option (List (String × UserEntry)))
    (price : ℚ) (ws ws₂ ws₃ : List (String × WaterVal))
    (hagree : List.lookup (stripZone z) ws = List.lookup (stripZone z) ws₂)
    (hmiss : List.lookup (stripZone z) ws₃ = none) :
    (resolveZone z b e (some ws) u price).water_quality_value =
      (resolveZone z b e (some ws₂) u price).water_quality_value
    ∧ (resolveZone z b e (some ws₃) u price).water_quality_value = Param.pair 100.0 2.0 := by
  constructor
  · have hw : waterBranch z (some ws) = waterBranch z (some ws₂) := by
      simp only [waterBranch, hagree]
    simp only [resolveZone, hw]
  · simp [resolveZone, waterBranch, hmiss]

/-- Witness for C9 at the zone `X_LLP`: a water entry keyed by the unmodified
identifier `X_LLP` is invisible (the lookup key is `X`), so the default is
used; and the stats `[("X_LLP", …)]` resolve exactly like the empty stats. -/
theorem water_lookup_stripped_key_witness :
    List.lookup (stripZone "X_LLP") [("X_LLP", WaterVal.dict [("water_yield_per_acre_usd", 55)])]
        = List.lookup (stripZone "X_LLP") ([] : List (String × WaterVal)) ∧
    List.lookup (stripZone "X_LLP") [("X_LLP", WaterVal.dict [("water_yield_per_acre_usd", 55)])]
        = none ∧
    ((resolveZone "X_LLP" bEx []
        (some [("X_LLP", WaterVal.dict [("water_yield_per_acre_usd", 55)])]) none 10
       ).water_quality_value =
      (resolveZone "X_LLP" bEx [] (some ([] : List (String × WaterVal))) none 10
       ).water_quality_value
    ∧ (resolveZone "X_LLP" bEx []
        (some [("X_LLP", WaterVal.dict [("water_yield_per_acre_usd", 55)])]) none 10
       ).water_quality_value = Param.pair 100.0 2.0) :=
  ⟨by decide, by decide,
   water_lookup_stripped_key "X_LLP" bEx [] none 10
     [("X_LLP", WaterVal.dict [("water_yield_per_acre_usd", 55)])] []
     [("X_LLP", WaterVal.dict [("water_yield_per_acre_usd", 55)])]
     (by decide) (by decide)⟩

/-- C10: when a zone has a `user_params` entry, every economic field missing
from that entry is filled from the fixed generic defaults of the merge —
`E_Pt (25,3)`, `g (200,30)`, `WTP (13.37,2)`, `R_t_lease [200,150,100,50,25]`,
`T_lease 5`, `r_lease 0.05`, `epsilon_t 0` — never from the zone-class table;
the zone-class table is consulted exactly when the zone has no entry. -/
theorem user_override_generic_defaults (z : String) (b : BiomassEntry)
    (e : List (String × EmissionsEntry)) (ws : Option (List (String × WaterVal)))
    (price : ℚ) (up up₂ : List (String × UserEntry)) (entry : UserEntry)
    (hz : List.lookup z up = some entry)
    (hz₂ : List.lookup z up₂ = none) :
    (resolveZone z b e ws (some up) price).E_Pt = entry.E_Pt.getD (Param.pair 25.0 3.0)
    ∧ (resolveZone z b e ws (some up) price).g = entry.g.getD (Param.pair 200.0 30.0)
    ∧ (resolveZone z b e ws (some up) price).endangered_species_WTP =
        entry.endangered_species_WTP.getD (Param.pair 13.37 2.0)
    ∧ (resolveZone z b e ws (some up) price).R_t_lease =
        entry.R_t_lease.getD [200, 150, 100, 50, 25]
    ∧ (resolveZone z b e ws (some up) price).T_lease = entry.T_lease.getD 5
    ∧ (resolveZone z b e ws (some up) price).r_lease = entry.r_lease.getD (Param.fixed 0.05)
    ∧ (resolveZone z b e ws (some up) price).epsilon_t = entry.epsilon_t.getD (Param.fixed 0)
    ∧ userBranch z (some up₂) = get_default_params_for_zone z := by
  refine ⟨?_, ?_, ?_, ?_, ?_, ?_, ?_, ?_⟩ <;>
    simp [resolveZone, userBranch, hz, hz₂]

/-- Witness for C10 at zone `CS1_A` with an empty override entry: the merge
fills from the generic defaults (stumpage `(25, 3)`), not from the `CS1`
class row (stumpage `(7.5, 1)`). -/
theorem user_override_generic_defaults_witness :
    List.lookup "CS1_A" [("CS1_A", ({} : UserEntry))] = some ({} : UserEntry) ∧
    List.lookup "CS1_A" ([] : List (String × UserEntry)) = none ∧
    ((resolveZone "CS1_A" bEx [] none (some [("CS1_A", ({} : UserEntry))]) 10).E_Pt =
        ({} : UserEntry).E_Pt.getD (Param.pair 25.0 3.0)
    ∧ (resolveZone "CS1_A" bEx [] none (some [("CS1_A", ({} : UserEntry))]) 10).g =
        ({} : UserEntry).g.getD (Param.pair 200.0 30.0)
    ∧ (resolveZone "CS1_A" bEx [] none (some [("CS1_A", ({} : UserEntry))]) 10
        ).endangered_species_WTP = ({} : UserEntry).endangered_species_WTP.getD
          (Param.pair 13.37 2.0)
    ∧ (resolveZone "CS1_A" bEx [] none (some [("CS1_A", ({} : UserEntry))]) 10).R_t_lease =
        ({} : UserEntry).R_t_lease.getD [200, 150, 100, 50, 25]
    ∧ (resolveZone "CS1_A" bEx [] none (some [("CS1_A", ({} : UserEntry))]) 10).T_lease =
        ({} : UserEntry).T_lease.getD 5
    ∧ (resolveZone "CS1_A" bEx [] none (some [("CS1_A", ({} : UserEntry))]) 10).r_lease =
        ({} : UserEntry).r_lease.getD (Param.fixed 0.05)
    ∧ (resolveZone "CS1_A" bEx [] none (some [("CS1_A", ({} : UserEntry))]) 10).epsilon_t =
        ({} : UserEntry).epsilon_t.getD (Param.fixed 0)
    ∧ userBranch "CS1_A" (some ([] : List (String × UserEntry))) =
        get_default_params_for_zone "CS1_A") :=
  ⟨by decide, rfl,
   user_override_generic_defaults "CS1_A" bEx [] none 10
     [("CS1_A", ({} : UserEntry))] [] ({} : UserEntry) (by decide) rfl⟩

/-- C6 counterexample: a zone whose acreage is negative is NOT excluded from
the summary output — with acreage `-1` for zone `Z` the driver produces a
summary row for `Z` (the skip test is `acres == 0` only). -/
theorem negative_acreage_row_cex :
    (run_monte_carlo [("Z", bEx)] [] [("Z", -1)] none none 10 (fun _ => [nEx])
      ).map SummaryRow.Case = ["Z"] := by
  norm_num [run_monte_carlo, create_economic_parameters, List.lookup, summaryRow,
    List.filterMap_cons]

/-- C6 amended: the driver excludes (without raising) exactly the zones whose
acreage resolves to zero — an absent acreage entry reads as zero and is
likewise excluded — while a zone with negative acreage is NOT excluded: it is
processed and produces its summary row, whose values are the per-acre draws
unscaled, since scaling happens only for positive acreage. -/
theorem acreage_skip_policy (biomass : List (String × BiomassEntry))
    (emis : List (String × EmissionsEntry)) (acres : List (String × ℚ))
    (water : Option (List (String × WaterVal)))
    (user : Option (List (String × UserEntry))) (price : ℚ)
    (noises : String → List Noise) (z z₂ : String) (p₂ p : CaseParams)
    (a : ℚ) (ns : List Noise)
    (hz : (List.lookup z acres).getD 0 = 0)
    (ha : a < 0)
    (hmem : (z₂, p₂) ∈ create_economic_parameters biomass emis water user price)
    (ha₂ : (List.lookup z₂ acres).getD 0 = a) :
    z ∉ (run_monte_carlo biomass emis acres water user price noises).map SummaryRow.Case
    ∧ calculate_tev p (some a) ns = ns.map (tev_per_acre p)
    ∧ summaryRow z₂ a (calculate_tev p₂ (some a) (noises z₂))
        ∈ run_monte_carlo biomass emis acres water user price noises := by
  have hnotpos : ¬ (0 : ℚ) < a := by linarith
  refine ⟨?_, ?_, ?_⟩
  · intro hcontra
    rw [List.mem_map] at hcontra
    obtain ⟨row, hrow, hcase⟩ := hcontra
    rw [run_monte_carlo, List.mem_filterMap] at hrow
    obtain ⟨zp, _, hf⟩ := hrow
    by_cases h0 : (List.lookup zp.1 acres).getD 0 = 0
    · rw [if_pos h0] at hf
      exact Option.noConfusion hf
    · rw [if_neg h0] at hf
      have hrow_eq : row = summaryRow zp.1 ((List.lookup zp.1 acres).getD 0)
          (calculate_tev zp.2 (some ((List.lookup zp.1 acres).getD 0)) (noises zp.1)) :=
        (Option.some.injEq _ _ ▸ hf).symm
      have : zp.1 = z := by
        rw [hrow_eq] at hcase
        exact hcase
      rw [this] at h0
      exact h0 hz
  · simp [calculate_tev, hnotpos]
  · rw [run_monte_carlo, List.mem_filterMap]
    refine ⟨(z₂, p₂), hmem, ?_⟩
    have hne : ¬ (List.lookup (z₂, p₂).1 acres).getD 0 = 0 := by
      rw [ha₂]
      linarith
    rw [if_neg hne, ha₂]

/-- Witness for the amended C6 statement: zone `Z0` has no acreage entry and
is excluded; zone `Zn` has acreage `-1` and produces its (unscaled) row. -/
theorem acreage_skip_policy_witness :
    (List.lookup "Z0" [("Zn", (-1 : ℚ))]).getD 0 = 0 ∧
    (-1 : ℚ) < 0 ∧
    ("Zn", resolveZone "Zn" bEx [] none none 10) ∈
      create_economic_parameters [("Z0", bEx), ("Zn", bEx)] [] none none 10 ∧
    (List.lookup "Zn" [("Zn", (-1 : ℚ))]).getD 0 = -1 ∧
    ("Z0" ∉ (run_monte_carlo [("Z0", bEx), ("Zn", bEx)] [] [("Zn", -1)] none none 10
        (fun _ => [nEx])).map SummaryRow.Case
    ∧ calculate_tev pEx (some (-1)) [nEx] = [nEx].map (tev_per_acre pEx)
    ∧ summaryRow "Zn" (-1)
        (calculate_tev (resolveZone "Zn" bEx [] none none 10) (some (-1)) [nEx])
        ∈ run_monte_carlo [("Z0", bEx), ("Zn", bEx)] [] [("Zn", -1)] none none 10
            (fun _ => [nEx])) :=
  ⟨rfl, by norm_num,
   by simp [create_economic_parameters],
   rfl,
   acreage_skip_policy [("Z0", bEx), ("Zn", bEx)] [] [("Zn", -1)] none none 10
     (fun _ => [nEx]) "Z0" "Zn" (resolveZone "Zn" bEx [] none none 10) pEx (-1) [nEx]
     rfl (by norm_num) (by simp [create_economic_parameters]) rfl⟩
